import Mathlib

/-!
# Verification of the Unity-to-Godot scene converter (`Unity2Godot.py`)

A shallow embedding of the conversion routines of `UnityToGodotConverter`.
YAML scalars and nested mappings are modelled by `PyVal`.  Python floats
are binary64 values, which are exact rationals; they are represented by
the normalized fraction type `Frac`, whose arithmetic is defined by
structural recursion so that concrete instances evaluate inside proofs,
and the one floating-point operation the converter performs
(`1 - smoothness`) is modelled as the IEEE-754 binary64 operation.
Mutation of nodes is modelled by explicit state passing; Python exceptions
are modelled with `Except`.
-/

set_option autoImplicit false
set_option maxRecDepth 100000
set_option exponentiation.threshold 4096

namespace U2G

/-! ## Exact fractions and IEEE-754 binary64 rounding -/

/-- Euclid's algorithm with explicit fuel (structural recursion). -/
def gcdFuel : Nat → Nat → Nat → Nat
  | 0, _, n => n
  | _ + 1, 0, n => n
  | f + 1, m + 1, n => gcdFuel f (n % (m + 1)) (m + 1)

/-- Greatest common divisor with sufficient fuel. -/
def natGcd (m n : Nat) : Nat :=
  gcdFuel (m + n + 1) m n

/-- An exact fraction: numerator and positive denominator, kept in lowest
terms by the smart constructor `Frac.mk'`. -/
structure Frac where
  num : ℤ
  den : ℕ
deriving DecidableEq

/-- Build a fraction in lowest terms (the denominator argument must be
positive; `Frac.mk' n 0` is mapped to `0`). -/
def Frac.mk' (n : ℤ) (d : ℕ) : Frac :=
  if d = 0 then ⟨0, 1⟩
  else
    let g := natGcd n.natAbs d
    ⟨n / (g : ℤ), d / g⟩

def Frac.ofInt (n : ℤ) : Frac := ⟨n, 1⟩

def Frac.mul (a b : Frac) : Frac := Frac.mk' (a.num * b.num) (a.den * b.den)

def Frac.sub (a b : Frac) : Frac :=
  Frac.mk' (a.num * (b.den : ℤ) - b.num * (a.den : ℤ)) (a.den * b.den)

def Frac.neg (a : Frac) : Frac := ⟨-a.num, a.den⟩

def Frac.abs (a : Frac) : Frac := ⟨|a.num|, a.den⟩

/-- `a ≤ b` by cross multiplication. -/
def Frac.le (a b : Frac) : Bool := a.num * (b.den : ℤ) ≤ b.num * (a.den : ℤ)

/-- `a < b` by cross multiplication. -/
def Frac.lt (a b : Frac) : Bool := a.num * (b.den : ℤ) < b.num * (a.den : ℤ)

/-- The floor of a fraction (`Int.fdiv` rounds toward minus infinity). -/
def Frac.floor (a : Frac) : ℤ := Int.fdiv a.num (a.den : ℤ)

/-- `2 ^ e` as a fraction, for an integer exponent. -/
def pow2 (e : ℤ) : Frac :=
  if 0 ≤ e then ⟨2 ^ e.toNat, 1⟩ else ⟨1, 2 ^ (-e).toNat⟩

/-- Round to nearest, ties to even. -/
def rne (x : Frac) : ℤ :=
  let f := x.floor
  let r := x.sub (Frac.ofInt f)
  if r.lt ⟨1, 2⟩ then f
  else if Frac.lt ⟨1, 2⟩ r then f + 1
  else if f % 2 = 0 then f else f + 1

/-- Binary search for the largest `e` in `[lo, hi]` with `2 ^ e ≤ a`,
given `2 ^ lo ≤ a`; the fuel bounds the number of halving rounds. -/
def floorLog2Aux : Nat → ℤ → ℤ → Frac → ℤ
  | 0, lo, _, _ => lo
  | f + 1, lo, hi, a =>
    if hi ≤ lo then lo
    else
      let mid := lo + (hi - lo + 1) / 2
      if (pow2 mid).le a then floorLog2Aux f mid hi a
      else floorLog2Aux f lo (mid - 1) a

/-- Largest binary64-relevant exponent `e` with `2 ^ e ≤ a`, clamped to
`[-1074, 1023]` (enough for every finite double the converter handles). -/
def floorLog2w (a : Frac) : ℤ :=
  if (pow2 (-1074)).le a then floorLog2Aux 13 (-1074) 1023 a else -1074

/-- The IEEE-754 binary64 bit pattern of an exact value: sign, then either
a subnormal significand or a rounded normal significand (53 bits) and
biased exponent (bias 1023). -/
def f64bits (q : Frac) : Nat :=
  if q.num = 0 then 0
  else
    let s : Nat := if q.num < 0 then 2 ^ 63 else 0
    let a := q.abs
    let e := floorLog2w a
    if e < -1022 then
      s + (rne (a.mul (pow2 1074))).toNat
    else
      let m := rne (a.mul (pow2 (52 - e)))
      if m = 2 ^ 53 then s + (e + 1 + 1023).toNat * 2 ^ 52
      else s + (e + 1023).toNat * 2 ^ 52 + (m - 2 ^ 52).toNat

/-- The exact rational value a binary64 bit pattern denotes (finite
range), as a normalized fraction. -/
def decodeF64bits (bits : Nat) : Frac :=
  let s : Nat := bits / 2 ^ 63 % 2
  let ef : Nat := bits / 2 ^ 52 % 2048
  let mf : Nat := bits % 2 ^ 52
  let mag : Frac :=
    if ef = 0 then (Frac.ofInt (mf : ℤ)).mul (pow2 (-1074))
    else (Frac.ofInt ((2 ^ 52 + mf : ℕ) : ℤ)).mul (pow2 ((ef : ℤ) - 1075))
  if s = 1 then mag.neg else mag

/-- The binary64 double nearest to an exact value (the value a Python
float literal or float arithmetic result denotes). -/
def roundF64 (q : Frac) : Frac := decodeF64bits (f64bits q)

/-- IEEE-754 binary64 subtraction: the exact difference of two doubles,
rounded to nearest even (CPython's `-` on floats). -/
def f64sub (a b : Frac) : Frac := roundF64 (a.sub b)

/-- A Python/YAML value as it appears in the parsed documents.  Numbers
are exact values of binary64 floats (or exact ints), held as fractions. -/
inductive PyVal where
  | num (q : Frac)
  | str (s : String)
  | bool (b : Bool)
  | dict (fields : List (String × PyVal))
  | list (items : List PyVal)

/-- The Python exceptions the embedded code can raise. -/
inductive PyError where
  | typeError
  | keyError (k : String)
  | attrError
  | nameError
deriving DecidableEq

/-- Lookup in a Python dict (keys are unique; first match). -/
def dictGet (d : List (String × PyVal)) (k : String) : Option PyVal :=
  (d.find? (fun p => p.1 = k)).map (·.2)

/-- `d.get(k)` on a value that must be a dict (`AttributeError` otherwise). -/
def pyGet (v : PyVal) (k : String) : Except PyError (Option PyVal) :=
  match v with
  | .dict d => .ok (dictGet d k)
  | _ => .error .attrError

/-- `d[k]` subscript on a value: `KeyError` on a missing key,
`TypeError` for kinds of value the embedded code never subscripts. -/
def pySub (v : PyVal) (k : String) : Except PyError PyVal :=
  match v with
  | .dict d =>
    match dictGet d k with
    | some x => .ok x
    | none => .error (.keyError k)
  | _ => .error .typeError

/-- Python truthiness for the values that occur in the converter. -/
def pyTruthy : PyVal → Bool
  | .num q => if q.num = 0 then false else true
  | .str s => if s = "" then false else true
  | .bool b => b
  | .dict d => !d.isEmpty
  | .list l => !l.isEmpty

/-- Python numeric coercion used by arithmetic (`1 - x`): numbers are
numbers, `True`/`False` count as `1`/`0`, anything else raises `TypeError`. -/
def pyToNum : PyVal → Except PyError Frac
  | .num q => .ok q
  | .bool b => .ok (if b then Frac.ofInt 1 else Frac.ofInt 0)
  | _ => .error .typeError

/-- A Unity component: one YAML mapping (a field bag keyed by strings). -/
abbrev Component := List (String × PyVal)

/-- `component.get(k)` for a component dict. -/
def cGet (c : Component) (k : String) : Option PyVal :=
  dictGet c k

/-- `component.get(k, default)`. -/
def cGetD (c : Component) (k : String) (d : PyVal) : PyVal :=
  (cGet c k).getD d

/-- The component's type tag when it is a string (membership of a
non-string value in the string-keyed type table is always false). -/
def tagStr (c : Component) : Option String :=
  match cGet c "Type" with
  | some (.str t) => some t
  | _ => none

/-- Parameters of an inline shape constructor literal. -/
inductive GDParam where
  | scalar (v : PyVal)
  | vec3 (x y z : PyVal)

/-- A Godot property payload: the structured form of the literal strings
the Python code builds (`str(v)`, `Color(...)`, `Shape.new(...)`,
`ExtResource("...")`, fixed literals, `Transform(...)`). -/
inductive GDValue where
  | ofPy (v : PyVal)
  | color (r g b a : PyVal)
  | shape (shapeName : String) (params : List (String × GDParam))
  | ext (path : String)
  | lit (s : String)
  | transform (scale rot pos : List PyVal)
  | vec2 (x y : PyVal)

/-- A Godot node: type tag, name, ordered property list
(property name, Godot type string, payload), ordered children. -/
inductive TNode where
  | mk (type name : String) (props : List (String × String × GDValue))
       (children : List TNode)

def TNode.type : TNode → String
  | .mk t _ _ _ => t

def TNode.name : TNode → String
  | .mk _ n _ _ => n

def TNode.props : TNode → List (String × String × GDValue)
  | .mk _ _ ps _ => ps

def TNode.children : TNode → List TNode
  | .mk _ _ _ cs => cs

/-- `node.add_property(name, Property(gdType, value))`. -/
def TNode.addProp (n : TNode) (k : String) (v : String × GDValue) : TNode :=
  match n with
  | .mk t nm ps cs => .mk t nm (ps ++ [(k, v.1, v.2)]) cs

/-- `node.add_child(child)`. -/
def TNode.addChild (n : TNode) (c : TNode) : TNode :=
  match n with
  | .mk t nm ps cs => .mk t nm ps (cs ++ [c])

/-- `node.type = t` (in-place type rewrite). -/
def TNode.setType (n : TNode) (t : String) : TNode :=
  match n with
  | .mk _ nm ps cs => .mk t nm ps cs

/-- The `unity_types_to_godot` table, in source order. -/
def unity_types_to_godot : List (String × String) :=
  [("Transform", "Node3D"),
   ("MeshRenderer", "MeshInstance3D"),
   ("Camera", "Camera3D"),
   ("Light", "Light3D"),
   ("Rigidbody", "RigidBody3D"),
   ("BoxCollider", "CollisionShape3D"),
   ("SphereCollider", "CollisionShape3D"),
   ("CapsuleCollider", "CollisionShape3D"),
   ("Canvas", "CanvasLayer"),
   ("RectTransform", "Control"),
   ("Image", "TextureRect"),
   ("Text", "Label"),
   ("Button", "Button"),
   ("ParticleSystem", "GPUParticles3D")]

/-- `self.unity_types_to_godot[t]` as an optional lookup. -/
def utgGet (t : String) : Option String :=
  (unity_types_to_godot.find? (fun p => p.1 = t)).map (·.2)

/-- A Unity game object: `Name` (absent modelled as `none`),
`Components`, `Children`. -/
inductive GameObject where
  | mk (name? : Option String) (components : List Component)
       (children : List GameObject)

def GameObject.name? : GameObject → Option String
  | .mk n _ _ => n

def GameObject.components : GameObject → List Component
  | .mk _ cs _ => cs

def GameObject.children : GameObject → List GameObject
  | .mk _ _ ch => ch

/-- The loop of `determine_node_type`: first component whose `Type` tag is a
key of `unity_types_to_godot` decides; otherwise the default `"Node3D"`. -/
def determineNodeTypeList : List Component → String
  | [] => "Node3D"
  | c :: rest =>
    match tagStr c with
    | some t =>
      match utgGet t with
      | some g => g
      | none => determineNodeTypeList rest
    | none => determineNodeTypeList rest

/-- `determine_node_type(game_object)` (lines 262-267). -/
def determine_node_type (go : GameObject) : String :=
  determineNodeTypeList go.components

/-- The first component type tag recognized by the table, in source order
(the notion the spec's tie-break law quantifies over). -/
def firstRecognizedTag : List Component → Option String
  | [] => none
  | c :: rest =>
    match tagStr c with
    | some t => if (utgGet t).isSome then some t else firstRecognizedTag rest
    | none => firstRecognizedTag rest

/-- `v[i]` on a value: lists index, dicts would miss the integer key,
other kinds the embedded code never indexes raise `TypeError`. -/
def pyIndex (v : PyVal) (i : Nat) : Except PyError PyVal :=
  match v with
  | .list l =>
    match l.get? i with
    | some x => .ok x
    | none => .error .nameError
  | .dict _ => .error (.keyError "0")
  | _ => .error .typeError

/-- `self.asset_map.get(v)`: the reference table is keyed by path strings,
so hashable non-string keys miss and unhashable ones raise `TypeError`. -/
def amGet (am : List (String × String)) (v : PyVal) :
    Except PyError (Option String) :=
  match v with
  | .str s => .ok ((am.find? (fun p => p.1 = s)).map (·.2))
  | .num _ => .ok none
  | .bool _ => .ok none
  | _ => .error .typeError

/-- `convert_transform(unity_transform)` (lines 201-205): builds the
`Transform(Vector3(scale), Quat(rotation), Vector3(position))` literal
string, interpolating scale, rotation, position in that order. -/
def convert_transform (unity_transform : PyVal) : Except PyError GDValue := do
  let position? ← pyGet unity_transform "position"
  let position := position?.getD (.list [.num (.ofInt 0), .num (.ofInt 0), .num (.ofInt 0)])
  let rotation? ← pyGet unity_transform "rotation"
  let rotation := rotation?.getD
    (.list [.num (.ofInt 0), .num (.ofInt 0), .num (.ofInt 0), .num (.ofInt 1)])
  let scale? ← pyGet unity_transform "scale"
  let scale := scale?.getD (.list [.num (.ofInt 1), .num (.ofInt 1), .num (.ofInt 1)])
  let s0 ← pyIndex scale 0
  let s1 ← pyIndex scale 1
  let s2 ← pyIndex scale 2
  let r0 ← pyIndex rotation 0
  let r1 ← pyIndex rotation 1
  let r2 ← pyIndex rotation 2
  let r3 ← pyIndex rotation 3
  let p0 ← pyIndex position 0
  let p1 ← pyIndex position 1
  let p2 ← pyIndex position 2
  pure (.transform [s0, s1, s2] [r0, r1, r2, r3] [p0, p1, p2])

/-- `convert_mesh_filter(component, node)` (lines 294-299). -/
def convert_mesh_filter (am : List (String × String)) (c : Component)
    (node : TNode) : Except PyError TNode := do
  let meshPath? ← pyGet (cGetD c "Mesh" (.dict [])) "Path"
  match meshPath? with
  | some mp =>
    if pyTruthy mp then do
      let g? ← amGet am mp
      match g? with
      | some g =>
        pure (if g = "" then node
              else node.addProp "mesh" ("ExtResource", .ext g))
      | none => pure node
    else pure node
  | none => pure node

/-- The body of the `enumerate(materials)` loop of `convert_mesh_renderer`. -/
def meshRendererLoop (am : List (String × String)) :
    Nat → List PyVal → TNode → Except PyError TNode
  | _, [], node => .ok node
  | i, m :: rest, node => do
    let p? ← pyGet m "Path"
    let node ←
      match p? with
      | some mp =>
        if pyTruthy mp then do
          let g? ← amGet am mp
          match g? with
          | some g =>
            pure (if g = "" then node
                  else node.addProp ("material_" ++ toString i)
                    ("ExtResource", .ext g))
          | none => pure node
        else pure node
      | none => pure node
    meshRendererLoop am (i + 1) rest node

/-- `convert_mesh_renderer(component, node)` (lines 301-308); iterating a
non-empty non-list would fail on the first element's `.get`. -/
def convert_mesh_renderer (am : List (String × String)) (c : Component)
    (node : TNode) : Except PyError TNode :=
  match cGetD c "Materials" (.list []) with
  | .list ms => meshRendererLoop am 0 ms node
  | .dict [] => .ok node
  | .str "" => .ok node
  | .dict _ => .error .attrError
  | .str _ => .error .attrError
  | _ => .error .typeError

/-- `convert_camera(component, node)` (lines 310-313). -/
def convert_camera (c : Component) (node : TNode) : Except PyError TNode :=
  .ok (((node.addProp "fov"
      ("float", .ofPy (cGetD c "FieldOfView" (.num (.ofInt 60))))).addProp "near"
      ("float", .ofPy (cGetD c "NearClipPlane"
        (.num (roundF64 (Frac.mk' 3 10)))))).addProp "far"
      ("float", .ofPy (cGetD c "FarClipPlane" (.num (.ofInt 1000)))))

/-- `convert_light(component, node)` (lines 315-326).  The light kind is
read from the component's `Type` field, the same field the dispatcher
keys on. -/
def convert_light (c : Component) (node : TNode) : Except PyError TNode := do
  let node :=
    match cGetD c "Type" (.str "Point") with
    | .str "Directional" => node.setType "DirectionalLight3D"
    | .str "Spot" => node.setType "SpotLight3D"
    | _ => node.setType "OmniLight3D"
  let color := cGetD c "Color"
    (.dict [("r", .num (.ofInt 1)), ("g", .num (.ofInt 1)), ("b", .num (.ofInt 1)), ("a", .num (.ofInt 1))])
  let r ← pySub color "r"
  let g ← pySub color "g"
  let b ← pySub color "b"
  let a ← pySub color "a"
  let node := node.addProp "light_color" ("Color", .color r g b a)
  pure (node.addProp "light_energy"
    ("float", .ofPy (cGetD c "Intensity" (.num (.ofInt 1)))))

/-- `convert_rigidbody(component, node)` (lines 328-332). -/
def convert_rigidbody (c : Component) (node : TNode) : Except PyError TNode :=
  let node := node.addProp "mass" ("float", .ofPy (cGetD c "Mass" (.num (.ofInt 1))))
  let node := node.addProp "gravity_scale"
    ("float", .lit (if pyTruthy (cGetD c "UseGravity" (.bool true))
                    then "1.0" else "0.0"))
  .ok (if pyTruthy (cGetD c "IsKinematic" (.bool false))
       then node.setType "AnimatableBody3D" else node)

/-- `convert_collider(component, node)` (lines 334-353).  In Python the
shape child is attached before its `shape` property is set; the property
is visible through the attached reference, so the model attaches the
finished child.  An unrecognized `Type` leaves the local `shape` unbound. -/
def convert_collider (c : Component) (node : TNode) : Except PyError TNode := do
  let shapeType ←
    match cGet c "Type" with
    | some v => pure v
    | none => Except.error (PyError.keyError "Type")
  match shapeType with
  | .str "BoxCollider" => do
    let size := cGetD c "Size"
      (.dict [("x", .num (.ofInt 1)), ("y", .num (.ofInt 1)), ("z", .num (.ofInt 1))])
    let sx ← pySub size "x"
    let sy ← pySub size "y"
    let sz ← pySub size "z"
    pure (node.addChild (TNode.mk "CollisionShape3D" "Collider"
      [("shape", "Shape3D", .shape "BoxShape3D" [("size", .vec3 sx sy sz)])] []))
  | .str "SphereCollider" =>
    let radius := cGetD c "Radius" (.num (Frac.mk' 1 2))
    pure (node.addChild (TNode.mk "CollisionShape3D" "Collider"
      [("shape", "Shape3D", .shape "SphereShape3D" [("radius", .scalar radius)])] []))
  | .str "CapsuleCollider" =>
    let radius := cGetD c "Radius" (.num (Frac.mk' 1 2))
    let height := cGetD c "Height" (.num (.ofInt 2))
    pure (node.addChild (TNode.mk "CollisionShape3D" "Collider"
      [("shape", "Shape3D", .shape "CapsuleShape3D"
        [("radius", .scalar radius), ("height", .scalar height)])] []))
  | _ => Except.error PyError.nameError

/-- `convert_particle_system(component, node)` (lines 355-359). -/
def convert_particle_system (c : Component) (node : TNode) :
    Except PyError TNode :=
  .ok ((((node.addProp "amount"
      ("int", .ofPy (cGetD c "MaxParticles" (.num (.ofInt 1000))))).addProp "lifetime"
      ("float", .ofPy (cGetD c "StartLifetime" (.num (.ofInt 5))))).addProp "explosiveness"
      ("float", .lit "0.0")).addProp "randomness" ("float", .lit "0.0"))

/-- `convert_canvas(component, node)` (lines 363-370). -/
def convert_canvas (c : Component) (node : TNode) : Except PyError TNode := do
  let node := node.addProp "layer" ("int", .ofPy (cGetD c "RenderMode" (.num (.ofInt 0))))
  let scaler := cGetD c "CanvasScaler" (.dict [])
  if pyTruthy scaler then do
    let sm? ← pyGet scaler "ScaleMode"
    let node := node.addProp "scale_mode" ("int", .ofPy (sm?.getD (.num (.ofInt 0))))
    let rr? ← pyGet scaler "ReferenceResolution"
    let rr := rr?.getD (.dict [("x", .num (.ofInt 800)), ("y", .num (.ofInt 600))])
    let x ← pySub rr "x"
    let y ← pySub rr "y"
    pure (node.addProp "reference_resolution" ("Vector2", .vec2 x y))
  else
    pure node

/-- `convert_rect_transform(component, node)` (lines 372-377). -/
def convert_rect_transform (c : Component) (node : TNode) :
    Except PyError TNode := do
  let anchors := cGetD c "Anchors"
    (.dict [("min", .dict [("x", .num (.ofInt 0)), ("y", .num (.ofInt 0))]),
            ("max", .dict [("x", .num (.ofInt 1)), ("y", .num (.ofInt 1))])])
  let mn ← pySub anchors "min"
  let mnx ← pySub mn "x"
  let node := node.addProp "anchor_left" ("float", .ofPy mnx)
  let mny ← pySub mn "y"
  let node := node.addProp "anchor_top" ("float", .ofPy mny)
  let mx ← pySub anchors "max"
  let mxx ← pySub mx "x"
  let node := node.addProp "anchor_right" ("float", .ofPy mxx)
  let mxy ← pySub mx "y"
  pure (node.addProp "anchor_bottom" ("float", .ofPy mxy))

/-- `convert_script_component(component, node)` (lines 381-386). -/
def convert_script_component (am : List (String × String)) (c : Component)
    (node : TNode) : Except PyError TNode := do
  let scriptPath? ← pyGet (cGetD c "Script" (.dict [])) "Path"
  match scriptPath? with
  | some sp =>
    if pyTruthy sp then do
      let g? ← amGet am sp
      match g? with
      | some g =>
        pure (if g = "" then node
              else node.addProp "script" ("ExtResource", .ext g))
      | none => pure node
    else pure node
  | none => pure node

/-- `convert_component(component, node)` (lines 269-292): the `elif` chain
on the component's `Type` tag; unhandled tags are logged and skipped. -/
def convert_component (am : List (String × String)) (c : Component)
    (node : TNode) : Except PyError TNode :=
  match cGet c "Type" with
  | some (.str "MeshFilter") => convert_mesh_filter am c node
  | some (.str "MeshRenderer") => convert_mesh_renderer am c node
  | some (.str "Camera") => convert_camera c node
  | some (.str "Light") => convert_light c node
  | some (.str "Rigidbody") => convert_rigidbody c node
  | some (.str "BoxCollider") => convert_collider c node
  | some (.str "SphereCollider") => convert_collider c node
  | some (.str "CapsuleCollider") => convert_collider c node
  | some (.str "ParticleSystem") => convert_particle_system c node
  | some (.str "Canvas") => convert_canvas c node
  | some (.str "RectTransform") => convert_rect_transform c node
  | some (.str "MonoBehaviour") => convert_script_component am c node
  | _ => .ok node

/-- The `for component in game_object.get('Components', [])` loop of
`convert_game_object` (lines 254-255). -/
def processComponents (am : List (String × String)) (comps : List Component)
    (node : TNode) : Except PyError TNode :=
  comps.foldlM (fun n c => convert_component am c n) node

/-- `convert_game_object(game_object, parent_node)` (lines 247-260).
Line 252 is `self.convert_transform(game_object, node)`: it passes two
positional arguments to `convert_transform`, which declares exactly one
besides `self` (line 201), so every call raises `TypeError` there, before
the component loop, the child recursion and the attachment to the parent. -/
def convert_game_object (go : GameObject) (_parent_node : TNode) :
    Except PyError TNode :=
  let nodeType := determine_node_type go
  let nodeName := go.name?.getD "GameObject"
  let _node := TNode.mk nodeType nodeName [] []
  Except.error PyError.typeError

/-! ## Material conversion -/

/-- `os.path.basename` for the forward-slash paths used throughout:
the characters after the last separator. -/
def basename (p : String) : String :=
  String.mk (p.toList.foldl (fun acc c => if c = '/' then [] else acc ++ [c]) [])

/-- `convert_texture(unity_texture_path)` (lines 121-128): the pixel
re-encoding is delegated to the external image codec; the converter's own
contribution is the target path under `<godot_project_path>/textures/`. -/
def convert_texture (godot_project_path unity_texture_path : String) : String :=
  godot_project_path ++ "/textures/" ++ basename unity_texture_path

/-- `convert_texture_map(unity_material, godot_material, unity_prop,
godot_prop)` (lines 115-119). -/
def convert_texture_map (gdp : String) (m : Component) (mat : TNode)
    (unityProp godotProp : String) : Except PyError TNode :=
  match cGet m unityProp with
  | some v => do
    let tp ← pySub v "Texture"
    match tp with
    | .str s =>
      pure (mat.addProp godotProp ("ExtResource", .ext (convert_texture gdp s)))
    | _ => .error .typeError
  | none => pure mat

/-- `convert_material_properties(unity_material, godot_material)`
(lines 100-113). -/
def convert_material_properties (gdp : String) (m : Component) (mat : TNode) :
    Except PyError TNode := do
  let mat ←
    match cGet m "Color" with
    | some color => do
      let r ← pySub color "r"
      let g ← pySub color "g"
      let b ← pySub color "b"
      let a ← pySub color "a"
      pure (mat.addProp "albedo_color" ("Color", .color r g b a))
    | none => pure mat
  let mat :=
    match cGet m "Metallic" with
    | some v => mat.addProp "metallic" ("float", .ofPy v)
    | none => mat
  let mat ←
    match cGet m "Smoothness" with
    | some v => do
      let q ← pyToNum v
      pure (mat.addProp "roughness" ("float", .ofPy (.num (f64sub (Frac.ofInt 1) q))))
    | none => pure mat
  let mat ← convert_texture_map gdp m mat "MainTex" "albedo_texture"
  let mat ← convert_texture_map gdp m mat "BumpMap" "normal_texture"
  convert_texture_map gdp m mat "MetallicGlossMap" "metallic_texture"

/-! ## Mesh conversion: the fallback unit cube and its binary layout

`struct.pack` little-endian fields are modelled as byte lists (`List Nat`,
each entry < 256).  `'<f'` packs the IEEE-754 binary32 encoding of the
value, built from the same exact-fraction machinery as the binary64
model above. -/

/-- Largest binary32-relevant exponent `e` with `2 ^ e ≤ a`, clamped to
`[-149, 127]` (enough for every finite value the converter packs). -/
def floorLog2 (a : Frac) : ℤ :=
  (List.range 277).foldl
    (fun acc i =>
      let e : ℤ := -149 + (i : ℤ); if (pow2 e).le a then e else acc)
    (-149)

/-- The IEEE-754 binary32 bit pattern of an exact value
(`struct.pack('<f', x)` before byte-splitting): sign, then either a
subnormal significand or a rounded normal significand and biased exponent. -/
def f32bits (q : Frac) : Nat :=
  if q.num = 0 then 0
  else
    let s : Nat := if q.num < 0 then 2 ^ 31 else 0
    let a := q.abs
    let e := floorLog2 a
    if e < -126 then
      s + (rne (a.mul (pow2 149))).toNat
    else
      let m := rne (a.mul (pow2 (23 - e)))
      if m = 2 ^ 24 then s + (e + 1 + 127).toNat * 2 ^ 23
      else s + (e + 127).toNat * 2 ^ 23 + (m - 2 ^ 23).toNat

/-- `struct.pack('<I', n)`: four little-endian bytes. -/
def packU32 (n : Nat) : List Nat :=
  [n % 256, n / 256 % 256, n / 65536 % 256, n / 16777216 % 256]

/-- `struct.pack('<f', x)`. -/
def packF32 (x : Frac) : List Nat :=
  packU32 (f32bits x)

/-- The eight cube vertices of `placeholder_mesh_conversion` (lines 141-144). -/
def cubeVertices : List (Frac × Frac × Frac) :=
  [(.ofInt (-1), .ofInt (-1), .ofInt (-1)),
   (.ofInt 1, .ofInt (-1), .ofInt (-1)),
   (.ofInt 1, .ofInt 1, .ofInt (-1)),
   (.ofInt (-1), .ofInt 1, .ofInt (-1)),
   (.ofInt (-1), .ofInt (-1), .ofInt 1),
   (.ofInt 1, .ofInt (-1), .ofInt 1),
   (.ofInt 1, .ofInt 1, .ofInt 1),
   (.ofInt (-1), .ofInt 1, .ofInt 1)]

/-- The 36 cube indices of `placeholder_mesh_conversion` (lines 145-152). -/
def cubeIndices : List Nat :=
  [0, 1, 2, 2, 3, 0,
   1, 5, 6, 6, 2, 1,
   5, 4, 7, 7, 6, 5,
   4, 0, 3, 3, 7, 4,
   3, 2, 6, 6, 7, 3,
   4, 5, 1, 1, 0, 4]

/-- The bytes `placeholder_mesh_conversion` writes to the target file
(lines 153-159): vertex count, vertex float triples, index count, indices. -/
def placeholderMeshBytes : List Nat :=
  packU32 cubeVertices.length
    ++ cubeVertices.flatMap (fun v => packF32 v.1 ++ packF32 v.2.1 ++ packF32 v.2.2)
    ++ packU32 cubeIndices.length
    ++ cubeIndices.flatMap packU32

/-- `placeholder_mesh_conversion(unity_mesh_path, godot_mesh_path)`
(lines 139-159) as the byte content written to the target file.  The
source filesystem is passed as a parameter to make explicit that the
function never opens the source path: only the fixed cube is written. -/
def placeholder_mesh_conversion (_sourceFs : String → List Nat)
    (_unity_mesh_path : String) : List Nat :=
  placeholderMeshBytes

/-- `convert_meshes` (lines 130-137): the target bytes per inventory entry
(mesh name, source path), each produced by the placeholder conversion. -/
def convert_meshes (sourceFs : String → List Nat)
    (meshes : List (String × String)) : List (String × List Nat) :=
  meshes.map (fun e =>
    (e.1 ++ ".mesh", placeholder_mesh_conversion sourceFs e.2))

/-! ### Decoding the documented binary layout -/

/-- Read one 4-byte little-endian unsigned integer. -/
def readU32 : List Nat → Option (Nat × List Nat)
  | b0 :: b1 :: b2 :: b3 :: rest =>
    some (b0 + 256 * b1 + 65536 * b2 + 16777216 * b3, rest)
  | _ => none

/-- The exact rational value a binary32 bit pattern denotes (finite
range), as a normalized fraction. -/
def decodeF32bits (bits : Nat) : Frac :=
  let s : Nat := bits / 2 ^ 31 % 2
  let ef : Nat := bits / 2 ^ 23 % 256
  let mf : Nat := bits % 2 ^ 23
  let mag : Frac :=
    if ef = 0 then (Frac.ofInt (mf : ℤ)).mul (pow2 (-149))
    else (Frac.ofInt ((2 ^ 23 + mf : ℕ) : ℤ)).mul (pow2 ((ef : ℤ) - 150))
  if s = 1 then mag.neg else mag

/-- Read one 4-byte little-endian binary32 float. -/
def readF32 (l : List Nat) : Option (Frac × List Nat) :=
  (readU32 l).map (fun p => (decodeF32bits p.1, p.2))

/-- Read `n` vertex triples of little-endian floats. -/
def readVertices : Nat → List Nat → Option (List (Frac × Frac × Frac) × List Nat)
  | 0, l => some ([], l)
  | n + 1, l => do
    let (x, l) ← readF32 l
    let (y, l) ← readF32 l
    let (z, l) ← readF32 l
    let (vs, l) ← readVertices n l
    pure ((x, y, z) :: vs, l)

/-- Read `n` 4-byte little-endian index values. -/
def readIndices : Nat → List Nat → Option (List Nat × List Nat)
  | 0, l => some ([], l)
  | n + 1, l => do
    let (i, l) ← readU32 l
    let (ix, l) ← readIndices n l
    pure (i :: ix, l)

/-- Decode a mesh file under the documented layout: a 4-byte little-endian
vertex count, vertex triples of 4-byte little-endian floats, a 4-byte
little-endian index count, then 4-byte little-endian index values. -/
def decodeMeshFile (bytes : List Nat) :
    Option (List (Frac × Frac × Frac) × List Nat) := do
  let (nv, rest) ← readU32 bytes
  let (vs, rest) ← readVertices nv rest
  let (ni, rest) ← readU32 rest
  let (ix, rest) ← readIndices ni rest
  if rest.isEmpty then pure (vs, ix) else none

/-! ## The Reference Rewriter -/

/-- `str.replace` for a non-empty pattern, on character lists, with the
fuel set by the caller to the text length (each step consumes at least one
character, so the fuel never runs out). -/
def replaceFuel (pat rep : List Char) : Nat → List Char → List Char
  | 0, l => l
  | _ + 1, [] => []
  | f + 1, c :: rest =>
    if pat.isPrefixOf (c :: rest) then
      rep ++ replaceFuel pat rep f (List.drop (pat.length - 1) rest)
    else
      c :: replaceFuel pat rep f rest

/-- Python `content.replace(pat, rep)`: all non-overlapping occurrences,
left to right; the empty pattern splices `rep` between all characters. -/
def pyReplace (pat rep l : List Char) : List Char :=
  if pat.isEmpty then rep ++ l.foldr (fun c acc => c :: (rep ++ acc)) []
  else replaceFuel pat rep l.length l

/-- `update_file_references(file_path)` (lines 413-423) on one document's
text: for each `(unity_path, godot_path)` table entry in order, replace
the source bare filename by the target bare filename. -/
def update_file_references (am : List (String × String)) (content : List Char) :
    List Char :=
  am.foldl
    (fun c e => pyReplace (basename e.1).toList (basename e.2).toList c)
    content

/-- `update_asset_references` (lines 406-411): the rewriting pass applied
to every emitted document of the output tree. -/
def update_asset_references (am : List (String × String))
    (docs : List (List Char)) : List (List Char) :=
  docs.map (update_file_references am)

/-- Whether `pat` occurs as a contiguous run inside `l`. -/
def containsSeq (pat : List Char) : List Char → Bool
  | [] => pat.isPrefixOf []
  | c :: rest => pat.isPrefixOf (c :: rest) || containsSeq pat rest

/-! ## Basic lemmas about the embedding -/

@[simp] theorem TNode.type_addProp (n : TNode) (k : String) (v : String × GDValue) :
    (n.addProp k v).type = n.type := by
  cases n; rfl

@[simp] theorem TNode.type_setType (n : TNode) (t : String) :
    (n.setType t).type = t := by
  cases n; rfl

/-- Type resolution returns the table image of the first recognized tag. -/
theorem determineNodeTypeList_eq_of_first (comps : List Component) :
    ∀ t g, firstRecognizedTag comps = some t → utgGet t = some g →
      determineNodeTypeList comps = g := by
  induction comps with
  | nil => intro t g h; simp [firstRecognizedTag] at h
  | cons c rest ih =>
    intro t g h1 h2
    simp only [firstRecognizedTag, determineNodeTypeList] at h1 ⊢
    cases htag : tagStr c with
    | none => simp only [htag] at h1 ⊢; exact ih t g h1 h2
    | some t' =>
      simp only [htag] at h1 ⊢
      by_cases hrec : (utgGet t').isSome
      · simp only [hrec, if_true] at h1
        cases h1
        obtain ⟨g', hg'⟩ := Option.isSome_iff_exists.mp hrec
        rw [h2] at hg' ⊢
      · simp only [hrec, if_false] at h1
        have : utgGet t' = none := Option.not_isSome_iff_eq_none.mp hrec
        simp only [this]
        exact ih t g h1 h2

/-- Type resolution defaults when no tag is recognized. -/
theorem determineNodeTypeList_default (comps : List Component)
    (h : firstRecognizedTag comps = none) :
    determineNodeTypeList comps = "Node3D" := by
  induction comps with
  | nil => rfl
  | cons c rest ih =>
    simp only [firstRecognizedTag, determineNodeTypeList] at h ⊢
    cases htag : tagStr c with
    | none => simp only [htag] at h ⊢; exact ih h
    | some t' =>
      simp only [htag] at h ⊢
      by_cases hrec : (utgGet t').isSome
      · simp [hrec] at h
      · simp only [hrec, if_false] at h
        have : utgGet t' = none := Option.not_isSome_iff_eq_none.mp hrec
        simp only [this]
        exact ih h

@[simp] theorem exceptBind_error {ε α β : Type} (e : ε) (f : α → Except ε β) :
    (Except.error e >>= f : Except ε β) = Except.error e := rfl

@[simp] theorem exceptBind_ok {ε α β : Type} (a : α) (f : α → Except ε β) :
    (Except.ok a >>= f : Except ε β) = f a := rfl

@[simp] theorem exceptMap_error {ε α β : Type} (e : ε) (f : α → β) :
    (f <$> (Except.error e : Except ε α)) = (Except.error e : Except ε β) := rfl

@[simp] theorem exceptMap_ok {ε α β : Type} (a : α) (f : α → β) :
    (f <$> (Except.ok a : Except ε α)) = (Except.ok (f a) : Except ε β) := rfl

@[simp] theorem exceptPure_eq {ε α : Type} (a : α) :
    (pure a : Except ε α) = Except.ok a := rfl

/-- Whenever `convert_light` succeeds on a component whose `Type` tag is
the dispatcher's `"Light"`, the node's type has been rewritten to
`"OmniLight3D"`: the light-kind branch reads the same `Type` field the
dispatcher keys on, so the Directional and Spot branches cannot fire. -/
theorem convert_light_omni (c : Component) (node n' : TNode)
    (htag : cGet c "Type" = some (PyVal.str "Light"))
    (h : convert_light c node = Except.ok n') : n'.type = "OmniLight3D" := by
  unfold convert_light at h
  rw [show cGetD c "Type" (.str "Point") = .str "Light" from by
    rw [cGetD, htag]; rfl] at h
  cases h1 : pySub (cGetD c "Color"
      (.dict [("r", .num (.ofInt 1)), ("g", .num (.ofInt 1)), ("b", .num (.ofInt 1)), ("a", .num (.ofInt 1))])) "r" with
  | error e => simp [h1] at h
  | ok r =>
    cases h2 : pySub (cGetD c "Color"
        (.dict [("r", .num (.ofInt 1)), ("g", .num (.ofInt 1)), ("b", .num (.ofInt 1)), ("a", .num (.ofInt 1))])) "g" with
    | error e => simp [h1, h2] at h
    | ok g =>
      cases h3 : pySub (cGetD c "Color"
          (.dict [("r", .num (.ofInt 1)), ("g", .num (.ofInt 1)), ("b", .num (.ofInt 1)), ("a", .num (.ofInt 1))])) "b" with
      | error e => simp [h1, h2, h3] at h
      | ok b =>
        cases h4 : pySub (cGetD c "Color"
            (.dict [("r", .num (.ofInt 1)), ("g", .num (.ofInt 1)), ("b", .num (.ofInt 1)), ("a", .num (.ofInt 1))])) "a" with
        | error e => simp [h1, h2, h3, h4] at h
        | ok a =>
          simp [h1, h2, h3, h4] at h
          subst h
          simp

/-! ## Claims -/

/-- Claim C1: the Object Graph Converter is claimed to instantiate the
target node and copy the local transform without raising an error; in the
code, `convert_game_object` calls `convert_transform(game_object, node)`
with two positional arguments though the method accepts one, so every
source object conversion raises `TypeError` (and no transform is ever
copied onto the node). -/
theorem c1_convert_game_object_always_raises (go : GameObject) (parent : TNode) :
    convert_game_object go parent = Except.error PyError.typeError :=
  rfl

/-- Claim C2: when the component list contains a recognized type tag, the
resolved node type is the table image of the first recognized tag in
source component order. -/
theorem c2_first_recognized_tag_decides (go : GameObject) (t g : String)
    (h1 : firstRecognizedTag go.components = some t)
    (h2 : utgGet t = some g) :
    determine_node_type go = g :=
  determineNodeTypeList_eq_of_first go.components t g h1 h2

theorem c2_first_recognized_tag_decides_witness :
    firstRecognizedTag
        [[("Type", PyVal.str "AudioSource")],
         [("Type", PyVal.str "MeshRenderer")],
         [("Type", PyVal.str "Camera")]] = some "MeshRenderer"
      ∧ utgGet "MeshRenderer" = some "MeshInstance3D"
      ∧ determine_node_type
          (GameObject.mk (some "Player")
            [[("Type", PyVal.str "AudioSource")],
             [("Type", PyVal.str "MeshRenderer")],
             [("Type", PyVal.str "Camera")]] []) = "MeshInstance3D" :=
  ⟨rfl, rfl,
    c2_first_recognized_tag_decides
      (GameObject.mk (some "Player")
        [[("Type", PyVal.str "AudioSource")],
         [("Type", PyVal.str "MeshRenderer")],
         [("Type", PyVal.str "Camera")]] [])
      "MeshRenderer" "MeshInstance3D" rfl rfl⟩

/-- Claim C4: when no component type tag is recognized (in particular for
an empty component list), type resolution yields the generic default
container type `"Node3D"`. -/
theorem c4_unrecognized_defaults_to_node3d (go : GameObject)
    (h : firstRecognizedTag go.components = none) :
    determine_node_type go = "Node3D" :=
  determineNodeTypeList_default go.components h

theorem c4_unrecognized_defaults_to_node3d_witness :
    firstRecognizedTag [[("Type", PyVal.str "AudioSource")], []] = none
      ∧ determine_node_type
          (GameObject.mk none [[("Type", PyVal.str "AudioSource")], []] [])
          = "Node3D"
      ∧ determine_node_type (GameObject.mk (some "Empty") [] []) = "Node3D" :=
  ⟨rfl,
    c4_unrecognized_defaults_to_node3d
      (GameObject.mk none [[("Type", PyVal.str "AudioSource")], []] []) rfl,
    c4_unrecognized_defaults_to_node3d (GameObject.mk (some "Empty") [] []) rfl⟩

/-- Claim C5: converting a sphere collider of radius 2.5 attaches exactly
one auxiliary shape child to the node; the child carries a single `shape`
property whose constructor literal is `SphereShape3D.new(radius = 2.5)`,
with no box-size and no capsule-height parameter. -/
theorem c5_sphere_collider_radius (node : TNode) :
    convert_collider
        [("Type", PyVal.str "SphereCollider"), ("Radius", PyVal.num ⟨5, 2⟩)] node
      = Except.ok (node.addChild (TNode.mk "CollisionShape3D" "Collider"
          [("shape", "Shape3D",
            GDValue.shape "SphereShape3D"
              [("radius", GDParam.scalar (PyVal.num ⟨5, 2⟩))])] [])) := by
  cases node; rfl

/-- Claim C10: mesh conversion output does not depend on the source mesh
file: for any two source filesystems and any two source paths the emitted
bytes coincide (and equal the fixed unit-cube encoding), both for a single
placeholder conversion and pointwise across a whole mesh inventory. -/
theorem c10_mesh_output_independent (fs1 fs2 : String → List Nat)
    (p1 p2 : String) (meshes : List (String × String)) :
    placeholder_mesh_conversion fs1 p1 = placeholder_mesh_conversion fs2 p2
      ∧ placeholder_mesh_conversion fs1 p1 = placeholderMeshBytes
      ∧ convert_meshes fs1 meshes = convert_meshes fs2 meshes :=
  ⟨rfl, rfl, rfl⟩

/-- Claim C3: the claim says a light whose kind field is `Directional`
ends up with the directional light type after in-place rewriting.  In the
code, every component dispatched to `convert_light` carries
`Type = "Light"`, and `convert_light` reads that same `Type` field as the
light kind, so every successfully processed light component leaves the
node's type tag rewritten to `"OmniLight3D"`, never the directional or
spot type. -/
theorem c3_dispatched_light_always_omni (am : List (String × String))
    (c : Component) (node n' : TNode)
    (htag : cGet c "Type" = some (PyVal.str "Light"))
    (hok : convert_component am c node = Except.ok n') :
    n'.type = "OmniLight3D" := by
  unfold convert_component at hok
  rw [htag] at hok
  exact convert_light_omni c node n' htag hok

theorem c3_dispatched_light_always_omni_witness :
    convert_component [] [("Type", PyVal.str "Light"), ("LightType", PyVal.str "Directional")]
        (TNode.mk "Light3D" "Sun" [] [])
      = Except.ok (TNode.mk "OmniLight3D" "Sun"
          [("light_color", "Color",
            GDValue.color (.num (.ofInt 1)) (.num (.ofInt 1)) (.num (.ofInt 1)) (.num (.ofInt 1))),
           ("light_energy", "float", GDValue.ofPy (.num (.ofInt 1)))] [])
    ∧ TNode.type (TNode.mk "OmniLight3D" "Sun"
        [("light_color", "Color",
          GDValue.color (.num (.ofInt 1)) (.num (.ofInt 1)) (.num (.ofInt 1)) (.num (.ofInt 1))),
         ("light_energy", "float", GDValue.ofPy (.num (.ofInt 1)))] []) = "OmniLight3D" :=
  ⟨rfl, c3_dispatched_light_always_omni []
    [("Type", PyVal.str "Light"), ("LightType", PyVal.str "Directional")]
    (TNode.mk "Light3D" "Sun" [] [])
    (TNode.mk "OmniLight3D" "Sun"
      [("light_color", "Color",
        GDValue.color (.num (.ofInt 1)) (.num (.ofInt 1)) (.num (.ofInt 1)) (.num (.ofInt 1))),
       ("light_energy", "float", GDValue.ofPy (.num (.ofInt 1)))] [])
    rfl rfl⟩

/-- Claim C6 counterexample: on the claim's own scenario the program does
not yield roughness 0.2.  A source `Smoothness: 0.8` parses to the
binary64 double nearest 4/5 and `Metallic: 0.2` to the double nearest
1/5; the converter computes `1 - 0.8` in binary64, which is
900719925474099/2^52 = 0.19999999999999996, one unit in the last place
below 0.2 — different both from exact 1/5 and from the double nearest
1/5 that an output of 0.2 would be. -/
theorem c6_roughness_not_point_two :
    convert_material_properties "godot"
        [("Color", .dict [("r", .num (.ofInt 1)), ("g", .num (.ofInt 0)),
                          ("b", .num (.ofInt 0)), ("a", .num (.ofInt 1))]),
         ("Metallic", .num ⟨3602879701896397, 18014398509481984⟩),
         ("Smoothness", .num ⟨3602879701896397, 4503599627370496⟩)]
        (TNode.mk "SpatialMaterial" "material" [] [])
      = Except.ok (TNode.mk "SpatialMaterial" "material"
          [("albedo_color", "Color",
            .color (.num (.ofInt 1)) (.num (.ofInt 0)) (.num (.ofInt 0)) (.num (.ofInt 1))),
           ("metallic", "float", .ofPy (.num ⟨3602879701896397, 18014398509481984⟩)),
           ("roughness", "float", .ofPy (.num ⟨900719925474099, 4503599627370496⟩))] [])
    ∧ (⟨3602879701896397, 4503599627370496⟩ : Frac) = roundF64 (Frac.mk' 4 5)
    ∧ (⟨3602879701896397, 18014398509481984⟩ : Frac) = roundF64 (Frac.mk' 1 5)
    ∧ (⟨900719925474099, 4503599627370496⟩ : Frac) ≠ Frac.mk' 1 5
    ∧ (⟨900719925474099, 4503599627370496⟩ : Frac) ≠ roundF64 (Frac.mk' 1 5) := by
  refine ⟨rfl, by decide, by decide, by decide, by decide⟩

/-- Claim C6 as amended: material conversion maps `Color` to a four-float
albedo color, `Metallic` to an unchanged metallic scalar, and
`Smoothness` to roughness computed as `1 - smoothness` in IEEE-754
binary64 arithmetic; the red material with metallic 0.2 and smoothness
0.8 yields albedo (1,0,0,1), metallic 0.2 (the double nearest 1/5) and
roughness 0.19999999999999996 (the binary64 value of `1 - 0.8`), not
exactly 0.2. -/
theorem c6_material_field_mapping_float :
    (∀ (gdp : String) (r g b a met sm : Frac) (mat : TNode),
      convert_material_properties gdp
          [("Color", .dict [("r", .num r), ("g", .num g), ("b", .num b), ("a", .num a)]),
           ("Metallic", .num met), ("Smoothness", .num sm)] mat
        = Except.ok (((mat.addProp "albedo_color"
              ("Color", .color (.num r) (.num g) (.num b) (.num a))).addProp
            "metallic" ("float", .ofPy (.num met))).addProp
            "roughness" ("float", .ofPy (.num (f64sub (Frac.ofInt 1) sm)))))
    ∧ convert_material_properties "godot"
          [("Color", .dict [("r", .num (.ofInt 1)), ("g", .num (.ofInt 0)),
                            ("b", .num (.ofInt 0)), ("a", .num (.ofInt 1))]),
           ("Metallic", .num ⟨3602879701896397, 18014398509481984⟩),
           ("Smoothness", .num ⟨3602879701896397, 4503599627370496⟩)]
          (TNode.mk "SpatialMaterial" "material" [] [])
        = Except.ok (TNode.mk "SpatialMaterial" "material"
            [("albedo_color", "Color",
              .color (.num (.ofInt 1)) (.num (.ofInt 0)) (.num (.ofInt 0)) (.num (.ofInt 1))),
             ("metallic", "float", .ofPy (.num ⟨3602879701896397, 18014398509481984⟩)),
             ("roughness", "float", .ofPy (.num ⟨900719925474099, 4503599627370496⟩))] [])
    ∧ f64sub (Frac.ofInt 1) (roundF64 (Frac.mk' 4 5))
        = ⟨900719925474099, 4503599627370496⟩ := by
  refine ⟨fun gdp r g b a met sm mat => by cases mat; rfl, rfl, by decide⟩

/-- Claim C7: the fallback mesh bytes decode, under the documented binary
layout (4-byte little-endian vertex count, vertex triples of 4-byte
little-endian binary32 floats, 4-byte little-endian index count, 4-byte
little-endian index values), to exactly the 8 documented unit-cube
vertices and the 36 documented indices (12 triangles), consuming the whole
file. -/
theorem c7_fallback_mesh_decodes_to_cube :
    decodeMeshFile placeholderMeshBytes = some (cubeVertices, cubeIndices)
      ∧ cubeVertices.length = 8 ∧ cubeIndices.length = 36 := by
  decide

/-! ## The Reference Rewriter lemmas (claim C8) -/

/-- A boolean prefix splits the list at the pattern length. -/
theorem prefix_append_drop (pat : List Char) :
    ∀ l : List Char, pat.isPrefixOf l = true →
      pat ++ List.drop pat.length l = l := by
  induction pat with
  | nil => intro l _; simp
  | cons p ps ih =>
    intro l h
    cases l with
    | nil => simp [List.isPrefixOf] at h
    | cons c rest =>
      simp only [List.isPrefixOf, Bool.and_eq_true, beq_iff_eq] at h
      obtain ⟨hpc, hrest⟩ := h
      subst hpc
      simp only [List.cons_append, List.length_cons, List.drop_succ_cons]
      rw [ih rest hrest]

/-- Replacing a non-empty pattern by itself changes nothing. -/
theorem replaceFuel_self (pat : List Char) (hne : pat ≠ []) :
    ∀ (f : Nat) (l : List Char), replaceFuel pat pat f l = l := by
  intro f
  induction f with
  | zero => intro l; rfl
  | succ f ih =>
    intro l
    cases l with
    | nil => rfl
    | cons c rest =>
      by_cases hp : pat.isPrefixOf (c :: rest) = true
      · rw [replaceFuel, if_pos hp, ih]
        cases pat with
        | nil => exact absurd rfl hne
        | cons p ps =>
          have := prefix_append_drop (p :: ps) (c :: rest) hp
          simpa [List.drop_succ_cons] using this
      · rw [replaceFuel, if_neg hp, ih]

/-- Replacing a pattern that does not occur changes nothing. -/
theorem replaceFuel_of_not_contains (pat rep : List Char) :
    ∀ l : List Char, containsSeq pat l = false →
      ∀ f : Nat, replaceFuel pat rep f l = l := by
  intro l
  induction l with
  | nil => intro _ f; cases f <;> rfl
  | cons c rest ih =>
    intro h f
    simp only [containsSeq, Bool.or_eq_false_iff] at h
    cases f with
    | zero => rfl
    | succ f =>
      rw [replaceFuel, if_neg (by simp [h.1]), ih h.2]

theorem pyReplace_self (pat l : List Char) : pyReplace pat pat l = l := by
  by_cases hne : pat = []
  · subst hne
    simp only [pyReplace, List.isEmpty_nil, if_pos]
    induction l with
    | nil => rfl
    | cons c rest ih =>
      simp only [List.nil_append, List.foldr_cons] at ih ⊢
      rw [ih]
  · rw [pyReplace, if_neg (by simpa using hne), replaceFuel_self pat hne]

theorem pyReplace_of_not_contains (pat rep l : List Char)
    (h : containsSeq pat l = false) : pyReplace pat rep l = l := by
  have hne : pat ≠ [] := by
    intro he
    subst he
    cases l with
    | nil => simp [containsSeq, List.isPrefixOf] at h
    | cons c rest => simp [containsSeq, List.isPrefixOf] at h
  rw [pyReplace, if_neg (by simpa using hne),
    replaceFuel_of_not_contains pat rep l h]

/-- If every table entry leaves a document unchanged, so does the whole
per-document rewriting fold. -/
theorem update_file_references_id :
    ∀ (am : List (String × String)) (content : List Char),
      (∀ e ∈ am,
        pyReplace (basename e.1).toList (basename e.2).toList content = content) →
      update_file_references am content = content
  | [], _, _ => rfl
  | e :: rest, content, h => by
    have h1 := h e (List.mem_cons_self e rest)
    show List.foldl _ _ (e :: rest) = content
    rw [List.foldl_cons, h1]
    exact update_file_references_id rest content
      (fun e' he' => h e' (List.mem_cons_of_mem e he'))

theorem map_id_of_mem {α : Type} (f : α → α) :
    ∀ l : List α, (∀ a ∈ l, f a = a) → l.map f = l
  | [], _ => rfl
  | a :: t, h => by
    rw [List.map_cons, h a (List.mem_cons_self a t),
      map_id_of_mem f t (fun b hb => h b (List.mem_cons_of_mem a hb))]

/-- Claim C8 counterexample: the Reference Rewriter is not idempotent for
every output tree and table.  With the two material entries below, the
first pass turns `"b.mat.mat"` into `"b.tres.mat"`, whose junction spells
out the other entry's source filename `"s.mat"`; the second pass rewrites
again, producing `"b.tres.tres"`. -/
theorem c8_rewriter_not_idempotent :
    ¬ (update_asset_references
        [("unity/s.mat", "godot/materials/s.tres"),
         ("unity/b.mat", "godot/materials/b.tres")]
        (update_asset_references
          [("unity/s.mat", "godot/materials/s.tres"),
           ("unity/b.mat", "godot/materials/b.tres")]
          ["b.mat.mat".toList])
      = update_asset_references
          [("unity/s.mat", "godot/materials/s.tres"),
           ("unity/b.mat", "godot/materials/b.tres")]
          ["b.mat.mat".toList]) := by
  decide

/-- Claim C8 as amended: the rewriting pass applied a second time leaves
every document byte-identical provided that after the first pass no table
entry's source bare filename occurs in any rewritten document (entries
whose source and target bare filenames coincide are harmless
substitutions and are exempt). -/
theorem c8_rewriter_conditionally_idempotent (am : List (String × String))
    (docs : List (List Char))
    (h : ∀ doc ∈ update_asset_references am docs, ∀ e ∈ am,
      (basename e.1).toList = (basename e.2).toList ∨
        containsSeq (basename e.1).toList doc = false) :
    update_asset_references am (update_asset_references am docs)
      = update_asset_references am docs := by
  unfold update_asset_references
  apply map_id_of_mem
  intro doc hdoc
  apply update_file_references_id
  intro e he
  rcases h doc hdoc e he with heq | hnc
  · rw [heq, pyReplace_self]
  · exact pyReplace_of_not_contains _ _ _ hnc

theorem c8_rewriter_conditionally_idempotent_witness :
    update_asset_references [("assets/x.mat", "out/materials/x.tres")]
        (update_asset_references [("assets/x.mat", "out/materials/x.tres")]
          ["material ref x.mat here".toList])
      = update_asset_references [("assets/x.mat", "out/materials/x.tres")]
          ["material ref x.mat here".toList] :=
  c8_rewriter_conditionally_idempotent
    [("assets/x.mat", "out/materials/x.tres")]
    ["material ref x.mat here".toList] (by decide)

/-- Claim C9: a component's external asset reference is attached only when
the Reference Table lookup succeeds; an absent reference field, an absent
path key, or a table miss leaves the node unchanged and conversion
succeeds, for both the mesh filter and the script component converter. -/
theorem c9_unresolved_reference_omitted (am : List (String × String))
    (c : Component) (node : TNode) :
    (cGet c "Mesh" = none → convert_mesh_filter am c node = Except.ok node)
    ∧ (∀ d, cGet c "Mesh" = some (.dict d) → dictGet d "Path" = none →
        convert_mesh_filter am c node = Except.ok node)
    ∧ (∀ d p, cGet c "Mesh" = some (.dict d) →
        dictGet d "Path" = some (.str p) → p ≠ "" →
        amGet am (.str p) = .ok none →
        convert_mesh_filter am c node = Except.ok node)
    ∧ (∀ d p g, cGet c "Mesh" = some (.dict d) →
        dictGet d "Path" = some (.str p) → p ≠ "" →
        amGet am (.str p) = .ok (some g) → g ≠ "" →
        convert_mesh_filter am c node
          = Except.ok (node.addProp "mesh" ("ExtResource", GDValue.ext g)))
    ∧ (cGet c "Script" = none →
        convert_script_component am c node = Except.ok node)
    ∧ (∀ d, cGet c "Script" = some (.dict d) → dictGet d "Path" = none →
        convert_script_component am c node = Except.ok node)
    ∧ (∀ d p, cGet c "Script" = some (.dict d) →
        dictGet d "Path" = some (.str p) → p ≠ "" →
        amGet am (.str p) = .ok none →
        convert_script_component am c node = Except.ok node)
    ∧ (∀ d p g, cGet c "Script" = some (.dict d) →
        dictGet d "Path" = some (.str p) → p ≠ "" →
        amGet am (.str p) = .ok (some g) → g ≠ "" →
        convert_script_component am c node
          = Except.ok (node.addProp "script" ("ExtResource", GDValue.ext g))) := by
  refine ⟨?_, ?_, ?_, ?_, ?_, ?_, ?_, ?_⟩
  · intro h; simp [convert_mesh_filter, cGetD, h, pyGet, dictGet]
  · intro d h hp; simp [convert_mesh_filter, cGetD, h, pyGet, hp]
  · intro d p h hp hne hmiss
    simp [convert_mesh_filter, cGetD, h, pyGet, hp, pyTruthy, hne, hmiss]
  · intro d p g h hp hne hhit hg
    simp [convert_mesh_filter, cGetD, h, pyGet, hp, pyTruthy, hne, hhit, hg]
  · intro h; simp [convert_script_component, cGetD, h, pyGet, dictGet]
  · intro d h hp; simp [convert_script_component, cGetD, h, pyGet, hp]
  · intro d p h hp hne hmiss
    simp [convert_script_component, cGetD, h, pyGet, hp, pyTruthy, hne, hmiss]
  · intro d p g h hp hne hhit hg
    simp [convert_script_component, cGetD, h, pyGet, hp, pyTruthy, hne, hhit, hg]

theorem c9_unresolved_reference_omitted_witness :
    convert_mesh_filter [("assets/cube.fbx", "out/meshes/cube.mesh")]
        [("Type", PyVal.str "MeshFilter"),
         ("Mesh", PyVal.dict [("Path", PyVal.str "assets/missing.fbx")])]
        (TNode.mk "MeshInstance3D" "M" [] [])
      = Except.ok (TNode.mk "MeshInstance3D" "M" [] [])
    ∧ convert_mesh_filter [("assets/cube.fbx", "out/meshes/cube.mesh")]
        [("Type", PyVal.str "MeshFilter"),
         ("Mesh", PyVal.dict [("Path", PyVal.str "assets/cube.fbx")])]
        (TNode.mk "MeshInstance3D" "M" [] [])
      = Except.ok ((TNode.mk "MeshInstance3D" "M" [] []).addProp "mesh"
          ("ExtResource", GDValue.ext "out/meshes/cube.mesh")) :=
  ⟨(c9_unresolved_reference_omitted
      [("assets/cube.fbx", "out/meshes/cube.mesh")]
      [("Type", PyVal.str "MeshFilter"),
       ("Mesh", PyVal.dict [("Path", PyVal.str "assets/missing.fbx")])]
      (TNode.mk "MeshInstance3D" "M" [] [])).2.2.1
    [("Path", PyVal.str "assets/missing.fbx")] "assets/missing.fbx"
    rfl rfl (by decide) rfl,
   (c9_unresolved_reference_omitted
      [("assets/cube.fbx", "out/meshes/cube.mesh")]
      [("Type", PyVal.str "MeshFilter"),
       ("Mesh", PyVal.dict [("Path", PyVal.str "assets/cube.fbx")])]
      (TNode.mk "MeshInstance3D" "M" [] [])).2.2.2.1
    [("Path", PyVal.str "assets/cube.fbx")] "assets/cube.fbx"
    "out/meshes/cube.mesh" rfl rfl (by decide) rfl (by decide)⟩

end U2G
